import Mathlib

/-!
Shallow embedding of `src/internal/battery/battery_info.c` (macbat).

The only function in the repository is `getBatteryInfo`, which reads battery
telemetry from two macOS IOKit subsystems: the power-source enumeration
service (`IOPSCopyPowerSourcesInfo` / `IOPSCopyPowerSourcesList` /
`IOPSGetPowerSourceDescription`) and the device property registry
(`IOServiceGetMatchingService` / `IORegistryEntryCreateCFProperties`).

The platform is modelled by an explicit environment `Env` recording, for each
platform call the C code makes, what that call would return: whether the
power-source info directory opens, the enumerated power-source list (each
entry with an optional description dictionary), whether the registry service
is found, and the optional registry property dictionary.  `getBatteryInfo`
is then a total function `Env → BatteryInfo` transcribing the C control flow
branch by branch.  A second transcription, `getBatteryInfoTrace`, also emits
the sequence of handle acquire/release events (`CFRelease` /
`IOObjectRelease` calls and the acquisitions they balance) so that
resource-safety claims can be stated.
-/

namespace Macbat

/-- Value of the IOPSKeys.h constant `kIOPSInternalBatteryType`. -/
def kIOPSInternalBatteryType : String := "InternalBattery"

/-- Value of the IOPSKeys.h constant `kIOPSACPowerValue`. -/
def kIOPSACPowerValue : String := "AC Power"

/-- The description dictionary of one power source, as returned by
`IOPSGetPowerSourceDescription`.  Each field models
`CFDictionaryGetValue(description, CFSTR(key))` for one of the keys the C
code reads: `none` means the key is absent (NULL), `some v` the stored value.
`typeKey` and `powerSourceState` hold CFString values, `isCharging` a
CFBoolean, the rest CFNumbers read with `kCFNumberIntType`. -/
structure PSDescription where
  typeKey : Option String
  currentCapacity : Option Int
  isCharging : Option Bool
  powerSourceState : Option String
  timeToEmpty : Option Int
  timeToFull : Option Int
  deriving DecidableEq, Repr

/-- One element of the array returned by `IOPSCopyPowerSourcesList`.
`description` is what `IOPSGetPowerSourceDescription` returns for it
(`none` = NULL). -/
structure PowerSource where
  description : Option PSDescription
  deriving DecidableEq, Repr

/-- The registry property dictionary produced by
`IORegistryEntryCreateCFProperties`, restricted to the five keys the C code
reads.  `none` means `CFDictionaryGetValue` returns NULL for that key. -/
structure RegistryProps where
  appleRawMaxCapacity : Option Int
  designCapacity : Option Int
  cycleCount : Option Int
  voltage : Option Int
  amperage : Option Int
  deriving DecidableEq, Repr

/-- The platform environment of one call: the outcome of each platform
lookup the C code performs.
* `powerInfo` — whether `IOPSCopyPowerSourcesInfo()` returns non-NULL;
* `powerSourcesList` — the result of `IOPSCopyPowerSourcesList(powerInfo)`
  (`none` = NULL);
* `registryService` — whether `IOServiceGetMatchingService(...,
  IOServiceMatching("IOPMPowerSource"))` returns a non-zero entry;
* `registryProps` — the dictionary produced by
  `IORegistryEntryCreateCFProperties` (`none` = the call did not return
  `KERN_SUCCESS`). -/
structure Env where
  powerInfo : Bool
  powerSourcesList : Option (List PowerSource)
  registryService : Bool
  registryProps : Option RegistryProps
  deriving DecidableEq, Repr

/-- The C result struct `BatteryInfo` (battery_info.h).  All fields are C
`int`s; `isCharging` and `isPlugged` are used as 0/1 flags.  The defaults
model the `= {0}` initializer. -/
structure BatteryInfo where
  currentCapacity : Int := 0
  maxCapacity : Int := 0
  designCapacity : Int := 0
  cycleCount : Int := 0
  voltage : Int := 0
  amperage : Int := 0
  isCharging : Int := 0
  isPlugged : Int := 0
  timeToEmpty : Int := 0
  timeToFull : Int := 0
  deriving DecidableEq, Repr

/-- The `BatteryInfo info = {0};` initializer: every field zero. -/
def BatteryInfo.zero : BatteryInfo := {}

/-- Body of the matched-battery branch of the loop (battery_info.c lines
38-72): from the matched entry's description, each field is extracted
independently, a missing key leaving the corresponding field unchanged.
`isCharging` is set to 1 only when the stored value is `kCFBooleanTrue`;
`isPlugged` is set to 1 only when the power-source-state string compares
equal to `kIOPSACPowerValue`. -/
def extractPhase1 (d : PSDescription) (info : BatteryInfo) : BatteryInfo :=
  let info := match d.currentCapacity with
    | some v => { info with currentCapacity := v }
    | none => info
  let info := if d.isCharging = some true then { info with isCharging := 1 } else info
  let info := match d.powerSourceState with
    | some s => if s = kIOPSACPowerValue then { info with isPlugged := 1 } else info
    | none => info
  let info := match d.timeToEmpty with
    | some v => { info with timeToEmpty := v }
    | none => info
  match d.timeToFull with
  | some v => { info with timeToFull := v }
  | none => info

/-- The `for` loop over the power-source array (battery_info.c lines 26-75):
entries whose description is NULL are skipped (`continue`); an entry whose
type key is present and equal to `kIOPSInternalBatteryType` is extracted and
the loop `break`s; any other entry is passed over. -/
def scanSources : List PowerSource → BatteryInfo → BatteryInfo
  | [], info => info
  | ps :: rest, info =>
    match ps.description with
    | none => scanSources rest info
    | some d =>
      match d.typeKey with
      | some t =>
        if t = kIOPSInternalBatteryType then extractPhase1 d info
        else scanSources rest info
      | none => scanSources rest info

/-- Body of the `KERN_SUCCESS` branch of the registry phase (battery_info.c
lines 92-116): five independent extractions from the property dictionary,
each skipped when its key is absent. -/
def applyRegistry (p : RegistryProps) (info : BatteryInfo) : BatteryInfo :=
  let info := match p.appleRawMaxCapacity with
    | some v => { info with maxCapacity := v }
    | none => info
  let info := match p.designCapacity with
    | some v => { info with designCapacity := v }
    | none => info
  let info := match p.cycleCount with
    | some v => { info with cycleCount := v }
    | none => info
  let info := match p.voltage with
    | some v => { info with voltage := v }
    | none => info
  match p.amperage with
  | some v => { info with amperage := v }
  | none => info

/-- The registry phase (battery_info.c lines 81-119): if the matching
service is found, try to read its property dictionary; on `KERN_SUCCESS`
extract the five registry fields, otherwise change nothing. -/
def registryPhase (env : Env) (info : BatteryInfo) : BatteryInfo :=
  if env.registryService then
    match env.registryProps with
    | some p => applyRegistry p info
    | none => info
  else info

/-- Direct transcription of `getBatteryInfo` (battery_info.c lines 9-122):
early return of the zero struct when `IOPSCopyPowerSourcesInfo` or
`IOPSCopyPowerSourcesList` fails, otherwise the loop over the sources
followed by the registry phase. -/
def getBatteryInfo (env : Env) : BatteryInfo :=
  let info : BatteryInfo := BatteryInfo.zero
  if env.powerInfo = false then info
  else
    match env.powerSourcesList with
    | none => info
    | some sources => registryPhase env (scanSources sources info)

/-- The four platform handles `getBatteryInfo` may acquire. -/
inductive Handle where
  | powerInfo
  | powerSources
  | registryEntry
  | properties
  deriving DecidableEq, Repr

/-- A handle acquisition or release event. -/
inductive Event where
  | acquire (h : Handle)
  | release (h : Handle)
  deriving DecidableEq, Repr

/-- The same transcription of `getBatteryInfo`, additionally emitting in
order the handle events the C code performs on the branch taken: each
successful `IOPSCopyPowerSourcesInfo` / `IOPSCopyPowerSourcesList` /
`IOServiceGetMatchingService` / `IORegistryEntryCreateCFProperties` is an
acquisition, and each `CFRelease` / `IOObjectRelease` a release. -/
def getBatteryInfoTrace (env : Env) : BatteryInfo × List Event :=
  if env.powerInfo = false then (BatteryInfo.zero, [])
  else
    match env.powerSourcesList with
    | none =>
      (BatteryInfo.zero, [.acquire .powerInfo, .release .powerInfo])
    | some sources =>
      let info := scanSources sources BatteryInfo.zero
      let preTrace : List Event :=
        [.acquire .powerInfo, .acquire .powerSources,
         .release .powerSources, .release .powerInfo]
      if env.registryService then
        match env.registryProps with
        | some p =>
          (applyRegistry p info,
           preTrace ++ [.acquire .registryEntry, .acquire .properties,
                        .release .properties, .release .registryEntry])
        | none =>
          (info, preTrace ++ [.acquire .registryEntry, .release .registryEntry])
      else (info, preTrace)

/-- Number of times handle `h` is acquired in trace `t`. -/
def countAcquire (t : List Event) (h : Handle) : Nat :=
  t.count (Event.acquire h)

/-- Number of times handle `h` is released in trace `t`. -/
def countRelease (t : List Event) (h : Handle) : Nat :=
  t.count (Event.release h)

/-- Whether an entry passes the loop's selection test (description present,
type key present, type equal to `kIOPSInternalBatteryType`). -/
def isInternalBattery (ps : PowerSource) : Bool :=
  match ps.description with
  | some d =>
    match d.typeKey with
    | some t => t = kIOPSInternalBatteryType
    | none => false
  | none => false

/-- Description of the first enumerated entry passing the selection test,
`none` when no entry passes. -/
def firstBattery : List PowerSource → Option PSDescription
  | [] => none
  | ps :: rest => if isInternalBattery ps then ps.description else firstBattery rest

/-- Whether the environment enumerates at least one internal-battery entry
that the scan can reach. -/
def hasInternalBattery (env : Env) : Bool :=
  env.powerInfo &&
    match env.powerSourcesList with
    | some l => l.any isInternalBattery
    | none => false

/-! ### Helper lemmas -/

/-- The sequential extraction of the matched-battery branch, rewritten as a
single record update: each field depends only on its own key. -/
theorem extractPhase1_eq (d : PSDescription) (info : BatteryInfo) :
    extractPhase1 d info =
      { info with
        currentCapacity := d.currentCapacity.getD info.currentCapacity,
        isCharging := if d.isCharging = some true then 1 else info.isCharging,
        isPlugged :=
          if d.powerSourceState = some kIOPSACPowerValue then 1 else info.isPlugged,
        timeToEmpty := d.timeToEmpty.getD info.timeToEmpty,
        timeToFull := d.timeToFull.getD info.timeToFull } := by
  rcases d with ⟨ty, cc, ch, st, te, tf⟩
  cases cc <;> cases st <;> cases te <;> cases tf <;>
    simp only [extractPhase1, Option.getD] <;>
    split_ifs <;> simp_all

/-- The sequential registry extraction, rewritten as a single record
update. -/
theorem applyRegistry_eq (p : RegistryProps) (info : BatteryInfo) :
    applyRegistry p info =
      { info with
        maxCapacity := p.appleRawMaxCapacity.getD info.maxCapacity,
        designCapacity := p.designCapacity.getD info.designCapacity,
        cycleCount := p.cycleCount.getD info.cycleCount,
        voltage := p.voltage.getD info.voltage,
        amperage := p.amperage.getD info.amperage } := by
  rcases p with ⟨mc, dc, cy, vo, am⟩
  cases mc <;> cases dc <;> cases cy <;> cases vo <;> cases am <;>
    simp only [applyRegistry, Option.getD]

/-- The loop is the extraction applied to the first matching entry, when one
exists, and the identity otherwise. -/
theorem scanSources_eq (l : List PowerSource) (info : BatteryInfo) :
    scanSources l info =
      match firstBattery l with
      | some d => extractPhase1 d info
      | none => info := by
  induction l with
  | nil => simp [scanSources, firstBattery]
  | cons ps rest ih =>
    rcases ps with ⟨desc⟩
    rcases desc with _ | ⟨ty, cc, ch, st, te, tf⟩
    · simpa [scanSources, firstBattery, isInternalBattery] using ih
    · rcases ty with _ | t
      · simpa [scanSources, firstBattery, isInternalBattery] using ih
      · by_cases ht : t = kIOPSInternalBatteryType
        · simp [scanSources, firstBattery, isInternalBattery, ht]
        · simpa [scanSources, firstBattery, isInternalBattery, ht] using ih

/-- No entry passes the selection test iff there is no first match. -/
theorem firstBattery_eq_none_iff (l : List PowerSource) :
    firstBattery l = none ↔ l.any isInternalBattery = false := by
  induction l with
  | nil => simp [firstBattery]
  | cons ps rest ih =>
    by_cases h : isInternalBattery ps = true
    · have hdesc : ∃ d, ps.description = some d := by
        rcases ps with ⟨desc⟩
        rcases desc with _ | d
        · simp [isInternalBattery] at h
        · exact ⟨d, rfl⟩
      rcases hdesc with ⟨d, hd⟩
      simp [firstBattery, h, hd]
    · simp only [Bool.not_eq_true] at h
      simp [firstBattery, h, ih]

/-- A matching entry returns its own description as the first match. -/
theorem firstBattery_cons_of_match (ps : PowerSource) (rest : List PowerSource)
    (h : isInternalBattery ps = true) :
    firstBattery (ps :: rest) = ps.description := by
  simp [firstBattery, h]

/-- A non-matching entry is passed over by the first-match search. -/
theorem firstBattery_cons_of_no_match (ps : PowerSource) (rest : List PowerSource)
    (h : isInternalBattery ps = false) :
    firstBattery (ps :: rest) = firstBattery rest := by
  simp [firstBattery, h]

/-- The registry phase leaves the five power-source-derived fields
untouched. -/
theorem registryPhase_frame (env : Env) (info : BatteryInfo) :
    (registryPhase env info).currentCapacity = info.currentCapacity ∧
    (registryPhase env info).isCharging = info.isCharging ∧
    (registryPhase env info).isPlugged = info.isPlugged ∧
    (registryPhase env info).timeToEmpty = info.timeToEmpty ∧
    (registryPhase env info).timeToFull = info.timeToFull := by
  unfold registryPhase
  cases env.registryService <;> rcases env.registryProps with _ | p <;>
    simp [applyRegistry_eq]

/-- When the registry phase fails (service absent or dictionary unreadable),
it is the identity. -/
theorem registryPhase_of_fail (env : Env) (info : BatteryInfo)
    (h : env.registryService = false ∨ env.registryProps = none) :
    registryPhase env info = info := by
  unfold registryPhase
  rcases h with h | h
  · simp [h]
  · cases env.registryService <;> simp [h]

/-- The loop leaves the five registry-derived fields untouched. -/
theorem scanSources_frame (l : List PowerSource) (info : BatteryInfo) :
    (scanSources l info).maxCapacity = info.maxCapacity ∧
    (scanSources l info).designCapacity = info.designCapacity ∧
    (scanSources l info).cycleCount = info.cycleCount ∧
    (scanSources l info).voltage = info.voltage ∧
    (scanSources l info).amperage = info.amperage := by
  rw [scanSources_eq]
  rcases h : firstBattery l with _ | d <;> simp [extractPhase1_eq]

/-- Unfolding of `getBatteryInfo` on the fully successful enumeration
path. -/
theorem getBatteryInfo_of_sources (env : Env) (sources : List PowerSource)
    (hpi : env.powerInfo = true) (hl : env.powerSourcesList = some sources) :
    getBatteryInfo env = registryPhase env (scanSources sources BatteryInfo.zero) := by
  simp [getBatteryInfo, hpi, hl]

/-- Unfolding of `getBatteryInfo` on the two early-return paths. -/
theorem getBatteryInfo_of_fail (env : Env)
    (h : env.powerInfo = false ∨ env.powerSourcesList = none) :
    getBatteryInfo env = BatteryInfo.zero := by
  unfold getBatteryInfo
  rcases h with h | h
  · simp [h]
  · cases hpi : env.powerInfo <;> simp [h, hpi]

/-- The snapshot computed by the traced transcription agrees with
`getBatteryInfo`. -/
theorem getBatteryInfoTrace_fst (env : Env) :
    (getBatteryInfoTrace env).1 = getBatteryInfo env := by
  rcases env with ⟨pi, psl, rs, rp⟩
  cases pi <;> rcases psl with _ | sources <;> cases rs <;> rcases rp with _ | p <;>
    simp [getBatteryInfoTrace, getBatteryInfo, registryPhase]

/-- The description the call actually extracts phase-1 fields from: the
first matching entry of a successful enumeration (derived selector, used
only to state field-level characterizations). -/
def matchedDescription (env : Env) : Option PSDescription :=
  if env.powerInfo = false then none
  else match env.powerSourcesList with
    | none => none
    | some sources => firstBattery sources

/-- The registry dictionary the call actually extracts from: the registry
phase only runs after a successful enumeration and a found service. -/
def effectiveRegistry (env : Env) : Option RegistryProps :=
  if env.powerInfo = false then none
  else match env.powerSourcesList with
    | none => none
    | some _ => if env.registryService then env.registryProps else none

/-- Closed form of every field of the returned snapshot: each phase-1 field
is read (with zero default) off the matched description, each registry field
off the effective registry dictionary. -/
theorem getBatteryInfo_eq_fields (env : Env) :
    getBatteryInfo env =
      { currentCapacity :=
          ((matchedDescription env).bind PSDescription.currentCapacity).getD 0,
        maxCapacity :=
          ((effectiveRegistry env).bind RegistryProps.appleRawMaxCapacity).getD 0,
        designCapacity :=
          ((effectiveRegistry env).bind RegistryProps.designCapacity).getD 0,
        cycleCount := ((effectiveRegistry env).bind RegistryProps.cycleCount).getD 0,
        voltage := ((effectiveRegistry env).bind RegistryProps.voltage).getD 0,
        amperage := ((effectiveRegistry env).bind RegistryProps.amperage).getD 0,
        isCharging :=
          if (matchedDescription env).bind PSDescription.isCharging = some true
          then 1 else 0,
        isPlugged :=
          if (matchedDescription env).bind PSDescription.powerSourceState
              = some kIOPSACPowerValue
          then 1 else 0,
        timeToEmpty := ((matchedDescription env).bind PSDescription.timeToEmpty).getD 0,
        timeToFull := ((matchedDescription env).bind PSDescription.timeToFull).getD 0 } := by
  rcases env with ⟨pi, psl, rs, rp⟩
  cases pi
  · simp [getBatteryInfo, matchedDescription, effectiveRegistry, BatteryInfo.zero]
  · rcases psl with _ | sources
    · simp [getBatteryInfo, matchedDescription, effectiveRegistry, BatteryInfo.zero]
    · rcases hfb : firstBattery sources with _ | d <;>
        cases rs <;> rcases rp with _ | p <;>
          simp [getBatteryInfo, matchedDescription, effectiveRegistry, registryPhase,
                scanSources_eq, hfb, extractPhase1_eq, applyRegistry_eq, BatteryInfo.zero]

/-- The first match before a matching entry does not depend on what is
listed after that entry. -/
theorem firstBattery_append_match (pre : List PowerSource) (ps : PowerSource)
    (rest rest2 : List PowerSource) (h : isInternalBattery ps = true) :
    firstBattery (pre ++ ps :: rest) = firstBattery (pre ++ ps :: rest2) := by
  induction pre with
  | nil => simp [firstBattery, h]
  | cons q pre ih =>
    cases hq : isInternalBattery q <;> simp [firstBattery, hq, ih]

/-! ### Concrete sample environments -/

/-- A description matching the spec scenario: internal battery at 87%,
charging, on AC power, 30 minutes to full charge. -/
def dSample : PSDescription :=
  { typeKey := some kIOPSInternalBatteryType, currentCapacity := some 87,
    isCharging := some true, powerSourceState := some kIOPSACPowerValue,
    timeToEmpty := none, timeToFull := some 30 }

/-- A fully successful environment around `dSample`. -/
def env87 : Env :=
  { powerInfo := true, powerSourcesList := some [{ description := some dSample }],
    registryService := true,
    registryProps := some { appleRawMaxCapacity := some 5000, designCapacity := some 5200,
                            cycleCount := some 150, voltage := some 11400,
                            amperage := some (-500) } }

/-- Environment in which `IOPSCopyPowerSourcesInfo` fails. -/
def envNoInfo : Env :=
  { powerInfo := false, powerSourcesList := none,
    registryService := false, registryProps := none }

/-- Environment in which the info directory opens but
`IOPSCopyPowerSourcesList` fails. -/
def envNoList : Env :=
  { powerInfo := true, powerSourcesList := none,
    registryService := true, registryProps := some
      { appleRawMaxCapacity := some 5000, designCapacity := none,
        cycleCount := none, voltage := none, amperage := none } }

/-- Environment with an empty power-source list but a registry entry that
reports a voltage. -/
def envNoBattery : Env :=
  { powerInfo := true, powerSourcesList := some [],
    registryService := true,
    registryProps := some { appleRawMaxCapacity := none, designCapacity := none,
                            cycleCount := none, voltage := some 11000,
                            amperage := none } }

/-- Environment with an empty power-source list and no registry service. -/
def envNoBatteryNoReg : Env :=
  { powerInfo := true, powerSourcesList := some [],
    registryService := false, registryProps := none }

/-- A battery description reporting a current capacity of 150. -/
def dOver : PSDescription :=
  { typeKey := some kIOPSInternalBatteryType, currentCapacity := some 150,
    isCharging := none, powerSourceState := none,
    timeToEmpty := none, timeToFull := none }

/-- Environment whose only power source is `dOver`. -/
def envOver : Env :=
  { powerInfo := true, powerSourcesList := some [{ description := some dOver }],
    registryService := false, registryProps := none }

/-- A battery description that is plugged in (AC power) but not charging. -/
def dPluggedFull : PSDescription :=
  { typeKey := some kIOPSInternalBatteryType, currentCapacity := some 100,
    isCharging := some false, powerSourceState := some kIOPSACPowerValue,
    timeToEmpty := none, timeToFull := none }

/-- Environment whose only power source is `dPluggedFull`. -/
def envPluggedFull : Env :=
  { powerInfo := true,
    powerSourcesList := some [{ description := some dPluggedFull }],
    registryService := false, registryProps := none }

/-- An enumerated entry whose description lookup returns NULL. -/
def psNoDescription : PowerSource := { description := none }

/-- Environment listing a description-less entry in front of `dSample`. -/
def envSkipThenBattery : Env :=
  { powerInfo := true,
    powerSourcesList := some [psNoDescription, { description := some dSample }],
    registryService := false, registryProps := none }

/-- Environment listing only the entries after the skipped one of
`envSkipThenBattery`. -/
def envBatteryOnly : Env :=
  { powerInfo := true,
    powerSourcesList := some [{ description := some dSample }],
    registryService := false, registryProps := none }

/-! ### Claims -/

/-- C1: `getBatteryInfo` takes no inputs besides the ambient platform state
and never fails visibly: for every platform environment it returns a
fully-populated snapshot, and on any internal lookup failure (missing
directory, list, match, key, registry service, dictionary, or dictionary
key) it leaves the corresponding field at its zero/false default rather
than surfacing an error. -/
theorem getBatteryInfo_total_defaults (env : Env) :
    (env.powerInfo = false → getBatteryInfo env = BatteryInfo.zero) ∧
    (env.powerSourcesList = none → getBatteryInfo env = BatteryInfo.zero) ∧
    (∀ sources, env.powerSourcesList = some sources →
      (firstBattery sources = none →
        (getBatteryInfo env).currentCapacity = 0 ∧
        (getBatteryInfo env).isCharging = 0 ∧
        (getBatteryInfo env).isPlugged = 0 ∧
        (getBatteryInfo env).timeToEmpty = 0 ∧
        (getBatteryInfo env).timeToFull = 0) ∧
      (∀ d, firstBattery sources = some d →
        (d.currentCapacity = none → (getBatteryInfo env).currentCapacity = 0) ∧
        (d.isCharging = none → (getBatteryInfo env).isCharging = 0) ∧
        (d.powerSourceState = none → (getBatteryInfo env).isPlugged = 0) ∧
        (d.timeToEmpty = none → (getBatteryInfo env).timeToEmpty = 0) ∧
        (d.timeToFull = none → (getBatteryInfo env).timeToFull = 0))) ∧
    ((env.registryService = false ∨ env.registryProps = none) →
      (getBatteryInfo env).maxCapacity = 0 ∧
      (getBatteryInfo env).designCapacity = 0 ∧
      (getBatteryInfo env).cycleCount = 0 ∧
      (getBatteryInfo env).voltage = 0 ∧
      (getBatteryInfo env).amperage = 0) ∧
    (∀ p, env.registryProps = some p →
      (p.appleRawMaxCapacity = none → (getBatteryInfo env).maxCapacity = 0) ∧
      (p.designCapacity = none → (getBatteryInfo env).designCapacity = 0) ∧
      (p.cycleCount = none → (getBatteryInfo env).cycleCount = 0) ∧
      (p.voltage = none → (getBatteryInfo env).voltage = 0) ∧
      (p.amperage = none → (getBatteryInfo env).amperage = 0)) := by
  rw [getBatteryInfo_eq_fields]
  refine ⟨?_, ?_, ?_, ?_, ?_⟩
  · intro h
    simp [matchedDescription, effectiveRegistry, h, BatteryInfo.zero]
  · intro h
    cases hpi : env.powerInfo <;>
      simp [matchedDescription, effectiveRegistry, h, hpi, BatteryInfo.zero]
  · intro sources hl
    constructor
    · intro hfb
      cases hpi : env.powerInfo <;>
        simp [matchedDescription, hl, hfb, hpi]
    · intro d hfb
      refine ⟨?_, ?_, ?_, ?_, ?_⟩ <;> intro hk <;>
        cases hpi : env.powerInfo <;>
          simp [matchedDescription, hl, hfb, hpi, hk]
  · intro h
    have he : effectiveRegistry env = none := by
      rcases h with h | h <;>
        cases hpi : env.powerInfo <;> rcases hl : env.powerSourcesList with _ | s <;>
          simp [effectiveRegistry, hpi, hl, h]
    simp [he]
  · intro p hp
    refine ⟨?_, ?_, ?_, ?_, ?_⟩ <;> intro hk <;>
      cases hpi : env.powerInfo <;> rcases hl : env.powerSourcesList with _ | s <;>
        cases hrs : env.registryService <;>
          simp [effectiveRegistry, hpi, hl, hrs, hp, hk]

/-- Witness for C1: the all-zero return when the directory fails, and a
zero-defaulted field when a key is absent in an otherwise successful
call. -/
theorem getBatteryInfo_total_defaults_witness :
    getBatteryInfo envNoInfo = BatteryInfo.zero ∧
    (getBatteryInfo env87).timeToEmpty = 0 :=
  ⟨(getBatteryInfo_total_defaults envNoInfo).1 rfl,
   (((getBatteryInfo_total_defaults env87).2.2.1 [{ description := some dSample }]
      rfl).2 dSample (by decide)).2.2.2.1 rfl⟩

/-- C2: on every branch of `getBatteryInfo`, each platform handle that is
acquired (power-source info directory, power-sources list, registry entry,
property dictionary) is released exactly once before the function returns:
acquisitions and releases balance and no handle is released twice. -/
theorem handles_released_exactly_once (env : Env) (h : Handle) :
    countAcquire (getBatteryInfoTrace env).2 h
        = countRelease (getBatteryInfoTrace env).2 h ∧
    countRelease (getBatteryInfoTrace env).2 h ≤ 1 := by
  rcases env with ⟨pi, psl, rs, rp⟩
  cases pi <;> rcases psl with _ | sources <;> cases rs <;> rcases rp with _ | p <;>
    cases h <;>
      simp [getBatteryInfoTrace, countAcquire, countRelease]

/-- C3: if opening the power-source info directory fails the call returns
the all-zero snapshot immediately with an empty handle trace; if the
directory opens but the list enumeration fails, it releases the directory
handle and returns the all-zero snapshot — in both cases the registry
entry is never acquired. -/
theorem early_exit_paths (env : Env) :
    (env.powerInfo = false →
      getBatteryInfoTrace env = (BatteryInfo.zero, []) ∧
      countAcquire (getBatteryInfoTrace env).2 Handle.registryEntry = 0) ∧
    (env.powerInfo = true → env.powerSourcesList = none →
      getBatteryInfoTrace env =
        (BatteryInfo.zero,
         [Event.acquire Handle.powerInfo, Event.release Handle.powerInfo]) ∧
      countAcquire (getBatteryInfoTrace env).2 Handle.registryEntry = 0) := by
  constructor
  · intro h
    simp [getBatteryInfoTrace, countAcquire, h]
  · intro hpi hl
    simp [getBatteryInfoTrace, countAcquire, hpi, hl]

/-- Witness for C3: both early-exit paths at concrete environments. -/
theorem early_exit_paths_witness :
    getBatteryInfoTrace envNoInfo = (BatteryInfo.zero, []) ∧
    getBatteryInfoTrace envNoList =
      (BatteryInfo.zero,
       [Event.acquire Handle.powerInfo, Event.release Handle.powerInfo]) :=
  ⟨((early_exit_paths envNoInfo).1 rfl).1,
   ((early_exit_paths envNoList).2 rfl rfl).1⟩

/-- C4: the scan walks the enumerated sources in listed order, selects the
first entry whose declared type equals the internal-battery type, extracts
the phase-1 fields from that entry only, and stops at the first match:
entries listed after the first match never influence the result, and with
no match the five phase-1 fields remain zero. -/
theorem scan_selects_first_match (env : Env) (sources : List PowerSource)
    (info : BatteryInfo) :
    (scanSources sources info =
      match firstBattery sources with
      | some d => extractPhase1 d info
      | none => info) ∧
    (∀ pre ps rest rest2, isInternalBattery ps = true →
      scanSources (pre ++ ps :: rest) info = scanSources (pre ++ ps :: rest2) info) ∧
    (env.powerInfo = true → env.powerSourcesList = some sources →
      ∀ d, firstBattery sources = some d →
        (getBatteryInfo env).currentCapacity
            = (extractPhase1 d BatteryInfo.zero).currentCapacity ∧
        (getBatteryInfo env).isCharging = (extractPhase1 d BatteryInfo.zero).isCharging ∧
        (getBatteryInfo env).isPlugged = (extractPhase1 d BatteryInfo.zero).isPlugged ∧
        (getBatteryInfo env).timeToEmpty
            = (extractPhase1 d BatteryInfo.zero).timeToEmpty ∧
        (getBatteryInfo env).timeToFull
            = (extractPhase1 d BatteryInfo.zero).timeToFull) ∧
    (env.powerInfo = true → env.powerSourcesList = some sources →
      firstBattery sources = none →
        (getBatteryInfo env).currentCapacity = 0 ∧
        (getBatteryInfo env).isCharging = 0 ∧
        (getBatteryInfo env).isPlugged = 0 ∧
        (getBatteryInfo env).timeToEmpty = 0 ∧
        (getBatteryInfo env).timeToFull = 0) := by
  refine ⟨scanSources_eq sources info, ?_, ?_, ?_⟩
  · intro pre ps rest rest2 h
    rw [scanSources_eq, scanSources_eq, firstBattery_append_match pre ps rest rest2 h]
  · intro hpi hl d hfb
    refine ⟨?_, ?_, ?_, ?_, ?_⟩ <;>
      simp [getBatteryInfo_eq_fields, matchedDescription, hpi, hl, hfb,
            extractPhase1_eq, BatteryInfo.zero]
  · intro hpi hl hfb
    refine ⟨?_, ?_, ?_, ?_, ?_⟩ <;>
      simp [getBatteryInfo_eq_fields, matchedDescription, hpi, hl, hfb]

/-- Witness for C4: a later entry is irrelevant once `dSample` matches, and
the phase-1 extraction of a successful call comes from the matched entry. -/
theorem scan_selects_first_match_witness :
    scanSources ([psNoDescription] ++ { description := some dSample } ::
        [{ description := some dOver }]) BatteryInfo.zero
        = scanSources ([psNoDescription] ++ { description := some dSample } :: [])
            BatteryInfo.zero ∧
    (getBatteryInfo env87).currentCapacity
        = (extractPhase1 dSample BatteryInfo.zero).currentCapacity :=
  ⟨(scan_selects_first_match env87 [] BatteryInfo.zero).2.1 [psNoDescription]
      { description := some dSample } [{ description := some dOver }] [] (by decide),
   ((scan_selects_first_match env87 [{ description := some dSample }]
      BatteryInfo.zero).2.2.1 rfl rfl dSample (by decide)).1⟩

/-- C5 counterexample: an environment whose enumerated power-source list is
empty (so has no internal-battery entry) but whose registry entry reports a
voltage; the returned snapshot is not all zero, refuting the claim that it
would be all zero/false in every field. -/
theorem no_battery_snapshot_not_all_zero :
    envNoBattery.powerSourcesList = some [] ∧
    ([] : List PowerSource).any isInternalBattery = false ∧
    (getBatteryInfo envNoBattery).voltage = 11000 ∧
    getBatteryInfo envNoBattery ≠ BatteryInfo.zero := by
  exact ⟨rfl, rfl, by decide, by decide⟩

/-- C5 amended: when the enumerated list contains no internal-battery
entry, the five power-source-derived fields are all zero/false, and the
snapshot is all zero in every field provided the registry phase also yields
nothing (service absent, property read failed, or all five registry keys
absent). -/
theorem no_battery_power_fields_zero (env : Env) (sources : List PowerSource)
    (hl : env.powerSourcesList = some sources)
    (hnb : sources.any isInternalBattery = false) :
    (getBatteryInfo env).currentCapacity = 0 ∧
    (getBatteryInfo env).isCharging = 0 ∧
    (getBatteryInfo env).isPlugged = 0 ∧
    (getBatteryInfo env).timeToEmpty = 0 ∧
    (getBatteryInfo env).timeToFull = 0 ∧
    ((env.registryService = false ∨ env.registryProps = none ∨
        env.registryProps = some { appleRawMaxCapacity := none, designCapacity := none,
                                   cycleCount := none, voltage := none,
                                   amperage := none }) →
      getBatteryInfo env = BatteryInfo.zero) := by
  have hfb : firstBattery sources = none := (firstBattery_eq_none_iff sources).2 hnb
  rw [getBatteryInfo_eq_fields]
  have hmd : matchedDescription env = none := by
    cases hpi : env.powerInfo <;> simp [matchedDescription, hpi, hl, hfb]
  refine ⟨by simp [hmd], by simp [hmd], by simp [hmd], by simp [hmd], by simp [hmd], ?_⟩
  intro h
  rcases h with h | h | h <;>
    cases hpi : env.powerInfo <;> cases hrs : env.registryService <;>
      simp_all [effectiveRegistry, BatteryInfo.zero]

/-- Witness for C5's amended claim: battery-less list and absent registry
service give the all-zero snapshot. -/
theorem no_battery_power_fields_zero_witness :
    (getBatteryInfo envNoBatteryNoReg).currentCapacity = 0 ∧
    getBatteryInfo envNoBatteryNoReg = BatteryInfo.zero :=
  ⟨(no_battery_power_fields_zero envNoBatteryNoReg [] rfl rfl).1,
   (no_battery_power_fields_zero envNoBatteryNoReg [] rfl rfl).2.2.2.2.2 (Or.inl rfl)⟩

/-- C6: when the registry lookup fails (service not found, or the property
dictionary cannot be read) the five registry-derived fields are all 0 and
the call returns exactly the phase-1 snapshot; and the registry extraction
never writes any power-source-derived field. -/
theorem registry_fail_frame (env : Env) :
    ((env.registryService = false ∨ env.registryProps = none) →
      (getBatteryInfo env).maxCapacity = 0 ∧
      (getBatteryInfo env).designCapacity = 0 ∧
      (getBatteryInfo env).cycleCount = 0 ∧
      (getBatteryInfo env).voltage = 0 ∧
      (getBatteryInfo env).amperage = 0 ∧
      (∀ sources, env.powerInfo = true → env.powerSourcesList = some sources →
        getBatteryInfo env = scanSources sources BatteryInfo.zero)) ∧
    (∀ p info, (applyRegistry p info).currentCapacity = info.currentCapacity ∧
      (applyRegistry p info).isCharging = info.isCharging ∧
      (applyRegistry p info).isPlugged = info.isPlugged ∧
      (applyRegistry p info).timeToEmpty = info.timeToEmpty ∧
      (applyRegistry p info).timeToFull = info.timeToFull) := by
  constructor
  · intro h
    have he : effectiveRegistry env = none := by
      rcases h with h | h <;>
        cases hpi : env.powerInfo <;> rcases hl : env.powerSourcesList with _ | s <;>
          simp [effectiveRegistry, hpi, hl, h]
    refine ⟨?_, ?_, ?_, ?_, ?_, ?_⟩
    · simp [getBatteryInfo_eq_fields, he]
    · simp [getBatteryInfo_eq_fields, he]
    · simp [getBatteryInfo_eq_fields, he]
    · simp [getBatteryInfo_eq_fields, he]
    · simp [getBatteryInfo_eq_fields, he]
    · intro sources hpi hl
      rw [getBatteryInfo_of_sources env sources hpi hl, registryPhase_of_fail env _ h]
  · intro p info
    simp [applyRegistry_eq]

/-- Witness for C6: with the registry service absent, the snapshot equals
the phase-1 result and carries a zero maxCapacity. -/
theorem registry_fail_frame_witness :
    (getBatteryInfo envBatteryOnly).maxCapacity = 0 ∧
    getBatteryInfo envBatteryOnly
        = scanSources [{ description := some dSample }] BatteryInfo.zero :=
  ⟨((registry_fail_frame envBatteryOnly).1 (Or.inl rfl)).1,
   ((registry_fail_frame envBatteryOnly).1 (Or.inl rfl)).2.2.2.2.2
      [{ description := some dSample }] rfl rfl⟩

/-- C7 counterexample: the extraction copies the platform-reported value
with no clamping, so an internal-battery entry reporting 150 yields a
snapshot whose currentCapacity is outside [0,100] even though an
internal-battery source is present. -/
theorem currentCapacity_range_counterexample :
    hasInternalBattery envOver = true ∧
    ¬(0 ≤ (getBatteryInfo envOver).currentCapacity ∧
      (getBatteryInfo envOver).currentCapacity ≤ 100) :=
  ⟨by decide, by decide⟩

/-- C7 amended: currentCapacity is exactly 0 when no internal-battery
source is reachable, and when a first match exists it equals the matched
entry's reported value (zero-defaulted), hence lies in [0,100] exactly
whenever the platform reports a value in that range. -/
theorem currentCapacity_passthrough (env : Env) :
    (hasInternalBattery env = false → (getBatteryInfo env).currentCapacity = 0) ∧
    (∀ sources d, env.powerInfo = true → env.powerSourcesList = some sources →
      firstBattery sources = some d →
      (getBatteryInfo env).currentCapacity = d.currentCapacity.getD 0 ∧
      (0 ≤ d.currentCapacity.getD 0 → d.currentCapacity.getD 0 ≤ 100 →
        0 ≤ (getBatteryInfo env).currentCapacity ∧
        (getBatteryInfo env).currentCapacity ≤ 100)) := by
  constructor
  · intro h
    have hmd : matchedDescription env = none := by
      cases hpi : env.powerInfo <;> rcases hl : env.powerSourcesList with _ | s <;>
        simp [matchedDescription, hpi, hl]
      exact (firstBattery_eq_none_iff s).2 (by simpa [hasInternalBattery, hpi, hl] using h)
    simp [getBatteryInfo_eq_fields, hmd]
  · intro sources d hpi hl hfb
    have hcc : (getBatteryInfo env).currentCapacity = d.currentCapacity.getD 0 := by
      simp [getBatteryInfo_eq_fields, matchedDescription, hpi, hl, hfb]
    exact ⟨hcc, fun h0 h100 => ⟨hcc ▸ h0, hcc ▸ h100⟩⟩

/-- Witness for C7's amended claim: pass-through of the reported 87 and the
zero default when the enumeration fails. -/
theorem currentCapacity_passthrough_witness :
    (getBatteryInfo env87).currentCapacity = dSample.currentCapacity.getD 0 ∧
    (0 ≤ (getBatteryInfo env87).currentCapacity ∧
      (getBatteryInfo env87).currentCapacity ≤ 100) ∧
    (getBatteryInfo envNoList).currentCapacity = 0 := by
  have h := (currentCapacity_passthrough env87).2 [{ description := some dSample }]
      dSample rfl rfl (by decide)
  exact ⟨h.1, h.2 (by decide) (by decide),
         (currentCapacity_passthrough envNoList).1 (by decide)⟩

/-- C8: isCharging and isPlugged only take values 0 and 1 and are set
independently — isCharging is 1 exactly when the matched entry's
charging-flag value is the boolean true, isPlugged is 1 exactly when the
entry's power-source-state equals the AC-power value, and for some platform
state isPlugged is 1 while isCharging is 0. -/
theorem charging_plugged_flags :
    (∀ env, ((getBatteryInfo env).isCharging = 0 ∨ (getBatteryInfo env).isCharging = 1) ∧
      ((getBatteryInfo env).isPlugged = 0 ∨ (getBatteryInfo env).isPlugged = 1)) ∧
    (∀ env sources d, env.powerInfo = true → env.powerSourcesList = some sources →
      firstBattery sources = some d →
      ((getBatteryInfo env).isCharging = 1 ↔ d.isCharging = some true) ∧
      ((getBatteryInfo env).isPlugged = 1 ↔
        d.powerSourceState = some kIOPSACPowerValue)) ∧
    (∃ env, (getBatteryInfo env).isPlugged = 1 ∧ (getBatteryInfo env).isCharging = 0) := by
  refine ⟨?_, ?_, ⟨envPluggedFull, by decide, by decide⟩⟩
  · intro env
    constructor
    · by_cases hc : (matchedDescription env).bind PSDescription.isCharging = some true <;>
        simp [getBatteryInfo_eq_fields, hc]
    · by_cases hp : (matchedDescription env).bind PSDescription.powerSourceState
          = some kIOPSACPowerValue <;>
        simp [getBatteryInfo_eq_fields, hp]
  · intro env sources d hpi hl hfb
    constructor
    · by_cases hc : d.isCharging = some true <;>
        simp [getBatteryInfo_eq_fields, matchedDescription, hpi, hl, hfb, hc]
    · by_cases hp : d.powerSourceState = some kIOPSACPowerValue <;>
        simp [getBatteryInfo_eq_fields, matchedDescription, hpi, hl, hfb, hp]

/-- Witness for C8: the characterizations applied to the charging, plugged
sample environment. -/
theorem charging_plugged_flags_witness :
    (getBatteryInfo env87).isCharging = 1 ∧ (getBatteryInfo env87).isPlugged = 1 := by
  have h := charging_plugged_flags.2.1 env87 [{ description := some dSample }] dSample
      rfl rfl (by decide)
  exact ⟨h.1.2 (by decide), h.2.2 (by decide)⟩

/-- C9: under normal operation — the matched entry does not itself report
both charge-direction estimates as non-zero — the returned snapshot never
has both timeToEmpty and timeToFull non-zero. -/
theorem time_estimates_exclusive (env : Env)
    (hnormal : ∀ sources d, env.powerSourcesList = some sources →
        firstBattery sources = some d →
        d.timeToEmpty.getD 0 = 0 ∨ d.timeToFull.getD 0 = 0) :
    (getBatteryInfo env).timeToEmpty = 0 ∨ (getBatteryInfo env).timeToFull = 0 := by
  cases hpi : env.powerInfo
  · left
    simp [getBatteryInfo_eq_fields, matchedDescription, hpi]
  · rcases hl : env.powerSourcesList with _ | sources
    · left
      simp [getBatteryInfo_eq_fields, matchedDescription, hpi, hl]
    · rcases hfb : firstBattery sources with _ | d
      · left
        simp [getBatteryInfo_eq_fields, matchedDescription, hpi, hl, hfb]
      · rcases hnormal sources d hl hfb with h | h
        · left
          simp [getBatteryInfo_eq_fields, matchedDescription, hpi, hl, hfb, h]
        · right
          simp [getBatteryInfo_eq_fields, matchedDescription, hpi, hl, hfb, h]

/-- Witness for C9: the sample environment reports no time-to-empty, so the
exclusivity conclusion holds there. -/
theorem time_estimates_exclusive_witness :
    (getBatteryInfo env87).timeToEmpty = 0 ∨ (getBatteryInfo env87).timeToFull = 0 := by
  apply time_estimates_exclusive
  intro sources d hs hd
  rw [show env87.powerSourcesList = some [{ description := some dSample }] from rfl] at hs
  injection hs with hs
  subst hs
  rw [show firstBattery [{ description := some dSample }] = some dSample from by decide]
    at hd
  injection hd with hd
  subst hd
  left
  rfl

/-- C10: during the scan, an enumerated entry whose description lookup
returns NULL is skipped and scanning continues, so an internal-battery
entry listed after a description-less entry is still found and used: the
whole call is unchanged by dropping the description-less entry. -/
theorem descriptionless_entry_skipped (ps : PowerSource) (hps : ps.description = none)
    (rest : List PowerSource) (info : BatteryInfo) :
    scanSources (ps :: rest) info = scanSources rest info ∧
    firstBattery (ps :: rest) = firstBattery rest ∧
    (∀ env env2, env.powerSourcesList = some (ps :: rest) →
      env2.powerSourcesList = some rest →
      env.powerInfo = env2.powerInfo → env.registryService = env2.registryService →
      env.registryProps = env2.registryProps →
      getBatteryInfo env = getBatteryInfo env2) := by
  have hib : isInternalBattery ps = false := by simp [isInternalBattery, hps]
  refine ⟨by simp [scanSources, hps], by simp [firstBattery, hib], ?_⟩
  intro env env2 hl hl2 hpi hrs hrp
  rw [getBatteryInfo_eq_fields, getBatteryInfo_eq_fields]
  have hmd : matchedDescription env = matchedDescription env2 := by
    cases hpi2 : env2.powerInfo <;>
      simp [matchedDescription, hl, hl2, hpi, hpi2, firstBattery, hib]
  have hre : effectiveRegistry env = effectiveRegistry env2 := by
    cases hpi2 : env2.powerInfo <;>
      simp [effectiveRegistry, hl, hl2, hpi, hpi2, hrs, hrp]
  rw [hmd, hre]

/-- Witness for C10: dropping the concrete description-less entry changes
neither the scan result nor the whole call. -/
theorem descriptionless_entry_skipped_witness :
    scanSources [psNoDescription, { description := some dSample }] BatteryInfo.zero
        = scanSources [{ description := some dSample }] BatteryInfo.zero ∧
    getBatteryInfo envSkipThenBattery = getBatteryInfo envBatteryOnly :=
  ⟨(descriptionless_entry_skipped psNoDescription rfl
      [{ description := some dSample }] BatteryInfo.zero).1,
   (descriptionless_entry_skipped psNoDescription rfl
      [{ description := some dSample }] BatteryInfo.zero).2.2
      envSkipThenBattery envBatteryOnly rfl rfl rfl rfl rfl⟩

end Macbat
